/-
Verification of the PDF-chatbot ingestion and answering pipelines.

Shallow embedding of the code in `config.py`, `pdf_processor.py`,
`chat_manager.py` and the session-state updates of `ui_components.py`.
Text is modelled as `List Char`.  External capabilities (PDF page
extraction, the embedding service, the Pinecone index API, the upload
step and the generation provider) are parameters of an environment
record; a capability call that can raise is an `Except String` value.
The text splitter invoked by `split_text_into_chunks` is the
`RecursiveCharacterTextSplitter` of langchain with the repository's
configuration (`keep_separator = True`, `strip_whitespace = True`,
`length_function = len`); its algorithm is embedded below
(`splitTextRec`, `mergeLoop`, `popWhile`).
-/
import Mathlib

set_option maxRecDepth 8000

namespace Chatbot

/-- Text is a list of characters (Python `str` with `len` as length). -/
abbrev Str := List Char

namespace Config

/-- `Config.TEXT_CHUNK_SIZE` (`config.py` line 39). -/
def TEXT_CHUNK_SIZE : Nat := 1000

/-- `Config.TEXT_CHUNK_OVERLAP` (`config.py` line 40). -/
def TEXT_CHUNK_OVERLAP : Nat := 200

/-- `Config.TEXT_SEPARATORS` (`config.py` line 41). -/
def TEXT_SEPARATORS : List Str :=
  [['\n', '\n'], ['\n'], ['.', ' '], ['!', ' '], ['?', ' '], [' '], []]

/-- `Config.VECTOR_DIMENSION` (`config.py` line 44). -/
def VECTOR_DIMENSION : Nat := 1536

/-- `Config.VECTOR_METRIC` (`config.py` line 45). -/
def VECTOR_METRIC : String := "cosine"

/-- `Config.RETRIEVAL_K` (`config.py` line 46). -/
def RETRIEVAL_K : Nat := 3

end Config

/-- Python `str.strip()`: drop whitespace from both ends. -/
def strTrim (s : Str) : Str :=
  ((s.dropWhile Char.isWhitespace).reverse.dropWhile Char.isWhitespace).reverse

/-- `needle` occurs at the start of `hay` (literal match). -/
def isPrefCL : Str → Str → Bool
  | [], _ => true
  | _ :: _, [] => false
  | a :: as, b :: bs => a = b && isPrefCL as bs

/-- `re.search(re.escape(needle), hay)`: literal substring search. -/
def isSubstr (needle : Str) : Str → Bool
  | [] => isPrefCL needle []
  | c :: rest => isPrefCL needle (c :: rest) || isSubstr needle rest

/-- `re.split` on a literal separator: cut `s` at each leftmost
non-overlapping occurrence of `sep`.  Fuel-based recursion; the fuel
`s.length` always suffices because every step consumes a character. -/
def splitOnSepFuel (sep : Str) : Nat → Str → Str → List Str
  | _, [], acc => [acc.reverse]
  | 0, s, acc => [acc.reverse ++ s]
  | fuel + 1, c :: rest, acc =>
    if isPrefCL sep (c :: rest) then
      acc.reverse :: splitOnSepFuel sep fuel (List.drop sep.length (c :: rest)) []
    else
      splitOnSepFuel sep fuel rest (c :: acc)

/-- Split `s` at every occurrence of the non-empty literal `sep`. -/
def splitOnSep (sep : Str) (s : Str) : List Str :=
  splitOnSepFuel sep s.length s []

/-- langchain `_split_text_with_regex(text, separator, keep_separator=True)`:
with a capture group the separator pieces are re-attached to the start of
the following piece; empty pieces are dropped.  An empty separator yields
the list of single characters. -/
def splitWithSep (sep : Str) (text : Str) : List Str :=
  if sep = [] then
    (text.map (fun c => [c])).filter (fun s => !s.isEmpty)
  else
    match splitOnSep sep text with
    | [] => []
    | p :: ps => (p :: ps.map (fun q => sep ++ q)).filter (fun s => !s.isEmpty)

/-- Separator selection of langchain `RecursiveCharacterTextSplitter._split_text`:
the first separator that is empty or occurs in the text is chosen, and the
remaining separators are kept for recursion; the default is the last
separator with no remaining ones. -/
def chooseSepGo (lastSep : Str) : List Str → Str → Str × List Str
  | [], _ => (lastSep, [])
  | s :: rest, text =>
    if s = [] then ([], [])
    else if isSubstr s text then (s, rest)
    else chooseSepGo lastSep rest text

/-- Separator choice for one recursion level of the splitter. -/
def chooseSep (seps : List Str) (text : Str) : Str × List Str :=
  chooseSepGo (seps.getLastD []) seps text

/-- langchain `TextSplitter._join_docs` with `strip_whitespace = True`:
join with the separator, strip, and drop the chunk when it is empty. -/
def joinDocs (sep : Str) (docs : List Str) : Option Str :=
  let text := strTrim (List.intercalate sep docs)
  if text = [] then none else some text

/-- The pop loop of langchain `TextSplitter._merge_splits`: after a chunk
has been emitted, drop leading splits from the running window while the
window is longer than the overlap, or while it together with the incoming
split would overflow the chunk size.  (In the source a negative total is
impossible because `total` always equals the exact window weight; `Nat`
subtraction agrees with the source on every reachable state.) -/
def popWhile (sep : Str) (chunkSize overlap dlen : Nat) :
    List Str → Nat → List Str × Nat
  | [], total => ([], total)
  | c :: rest, total =>
    if total > overlap ∨
        (total + dlen + (if (c :: rest).isEmpty then 0 else sep.length) > chunkSize
          ∧ total > 0) then
      popWhile sep chunkSize overlap dlen rest
        (total - (c.length + if rest.isEmpty then 0 else sep.length))
    else
      (c :: rest, total)

/-- The accumulation loop of langchain `TextSplitter._merge_splits`:
`docs` are the finished chunks, `current` the running window of splits,
`total` its weight (lengths plus separators). -/
def mergeLoop (sep : Str) (chunkSize overlap : Nat) :
    List Str → List Str → List Str → Nat → List Str
  | [], docs, current, _ => docs ++ (joinDocs sep current).toList
  | d :: ds, docs, current, total =>
    let dlen := d.length
    let sepExtra := if current.isEmpty then 0 else sep.length
    if total + dlen + sepExtra > chunkSize then
      if current.isEmpty then
        mergeLoop sep chunkSize overlap ds docs (current ++ [d]) (total + dlen + sepExtra)
      else
        let docs' := docs ++ (joinDocs sep current).toList
        let pc := popWhile sep chunkSize overlap dlen current total
        mergeLoop sep chunkSize overlap ds docs' (pc.1 ++ [d])
          (pc.2 + dlen + (if pc.1.isEmpty then 0 else sep.length))
    else
      mergeLoop sep chunkSize overlap ds docs (current ++ [d]) (total + dlen + sepExtra)

/-- langchain `TextSplitter._merge_splits`. -/
def mergeSplits (sep : Str) (chunkSize overlap : Nat) (splits : List Str) : List Str :=
  mergeLoop sep chunkSize overlap splits [] [] 0

/-- The loop over the pieces in `RecursiveCharacterTextSplitter._split_text`:
pieces shorter than the chunk size are collected and merged; an oversized
piece flushes the collected ones and is recursed on with the remaining
separators (or kept whole when none remain).  With `keep_separator = True`
merging always joins with the empty separator. -/
def splitLoop (chunkSize overlap : Nat) (recurse : Str → List Str)
    (newSeps : List Str) : List Str → List Str → List Str
  | [], good => if good = [] then [] else mergeSplits [] chunkSize overlap good
  | s :: ss, good =>
    if s.length < chunkSize then
      splitLoop chunkSize overlap recurse newSeps ss (good ++ [s])
    else
      (if good = [] then [] else mergeSplits [] chunkSize overlap good)
        ++ (if newSeps = [] then [s] else recurse s)
        ++ splitLoop chunkSize overlap recurse newSeps ss []

/-- langchain `RecursiveCharacterTextSplitter._split_text`.  The recursion
depth is bounded by the number of separators, because each recursive call
receives a strict suffix of the separator list; the fuel
`separators.length + 1` therefore always suffices. -/
def splitTextRec (chunkSize overlap : Nat) : Nat → List Str → Str → List Str
  | 0, _, text => [text]
  | fuel + 1, seps, text =>
    let p := chooseSep seps text
    let splits := splitWithSep p.1 text
    splitLoop chunkSize overlap (splitTextRec chunkSize overlap fuel p.2) p.2 splits []

/-- The splitter as configured by `PDFProcessor.split_text_into_chunks`
(`pdf_processor.py` lines 43-49). -/
def split_text (text : Str) : List Str :=
  splitTextRec Config.TEXT_CHUNK_SIZE Config.TEXT_CHUNK_OVERLAP
    (Config.TEXT_SEPARATORS.length + 1) Config.TEXT_SEPARATORS text

/-- The exact weight of a merge window: lengths of the splits plus one
separator length between adjacent splits (the quantity langchain's
`_merge_splits` tracks in `total`). -/
def docsWeight (sepLen : Nat) : List Str → Nat
  | [] => 0
  | [c] => c.length
  | c :: rest => c.length + sepLen + docsWeight sepLen rest

/-- The page filter of `PDFProcessor.extract_text_from_pdf`
(`pdf_processor.py` line 30): `PyPDF2` may return `None` for a page;
pages that are `None`, empty, or whitespace-only are dropped, the rest
are stripped. -/
def cleanPage : Option Str → Option Str
  | none => none
  | some p => if strTrim p = [] then none else some (strTrim p)

/-- `PDFProcessor.extract_text_from_pdf` (`pdf_processor.py` lines 24-38):
filter and strip the pages, join with a newline, and raise (wrapped as
`Error reading PDF: ...`) when nothing remains; on success return the
joined text together with the number of retained pages. -/
def extract_text_from_pdf (pages : List (Option Str)) : Except String (Str × Nat) :=
  if strTrim (List.intercalate ['\n'] (pages.filterMap cleanPage)) = [] then
    Except.error "Error reading PDF: No text could be extracted from the PDF file."
  else
    Except.ok (List.intercalate ['\n'] (pages.filterMap cleanPage),
      (pages.filterMap cleanPage).length)

/-- `PDFProcessor.split_text_into_chunks` (`pdf_processor.py` lines 40-56):
run the configured splitter and raise (wrapped) when no chunks result. -/
def split_text_into_chunks (text : Str) : Except String (List Str) :=
  if split_text text = [] then
    Except.error "Error splitting text: No text chunks were created from the PDF."
  else
    Except.ok (split_text text)

/-- The readiness wait of `PDFProcessor.setup_pinecone_index`
(`pdf_processor.py` lines 84-90): `for i in range(30)` polling
`describe_index`, breaking as soon as the index is ready, raising on the
loop's `else`.  `ready i` is the status reported by the `i`-th poll;
the returned number counts the `describe_index` calls made. -/
def pollIndex (ready : Nat → Bool) : Nat → Nat → Except String Nat
  | _, 0 => Except.error "Pinecone index creation timeout"
  | start, fuel + 1 =>
    if ready start then Except.ok (start + 1) else pollIndex ready (start + 1) fuel

/-- The external world an ingestion run interacts with.  `pages` is what
`PdfReader` extracts per page; `embedDim` models `embed_query` by the
length of the returned vector (the only use the code makes of it);
`ready` is the index readiness per poll; `createOk` and `uploadOk` are
the outcomes of `create_index` and `PineconeVectorStore.from_documents`. -/
structure IngestEnv where
  pages : List (Option Str)
  embedDim : Str → Except String Nat
  existingIndexes : List String
  createOk : Except String Unit
  ready : Nat → Bool
  uploadOk : Except String Unit

/-- Observable effects of one ingestion run: how many times the embedding
capability was invoked, the probed dimension, the `(dimension, metric)`
arguments passed to `create_index` (if it was called), the number of
`describe_index` polls, and whether the temporary PDF file still exists. -/
structure IngestTrace where
  embedCalls : Nat
  probedDim : Option Nat
  createIndexArgs : Option (Nat × String)
  describeCalls : Nat
  tempFileExists : Bool
  deriving DecidableEq

/-- `PDFProcessor.setup_pinecone_index` (`pdf_processor.py` lines 66-97):
reuse an existing index as-is; otherwise call `create_index` with the
configured dimension and metric and poll for readiness.  Any raise is
wrapped as `Error setting up Pinecone index: ...`.  Besides the result it
returns the `create_index` arguments (if called) and the poll count. -/
def setup_pinecone_index (env : IngestEnv) (indexName : String) :
    Except String (Bool × String) × Option (Nat × String) × Nat :=
  if indexName ∈ env.existingIndexes then
    (Except.ok (true, "existing"), none, 0)
  else
    match env.createOk with
    | Except.error e =>
      (Except.error ("Error setting up Pinecone index: " ++ e),
        some (Config.VECTOR_DIMENSION, Config.VECTOR_METRIC), 0)
    | Except.ok _ =>
      match pollIndex env.ready 0 30 with
      | Except.error e =>
        (Except.error ("Error setting up Pinecone index: " ++ e),
          some (Config.VECTOR_DIMENSION, Config.VECTOR_METRIC), 30)
      | Except.ok calls =>
        (Except.ok (true, "created"),
          some (Config.VECTOR_DIMENSION, Config.VECTOR_METRIC), calls)

/-- The `try` body of `PDFProcessor.process_pdf` (`pdf_processor.py`
lines 126-170): extraction, chunking, the embedding probe
(`test_embeddings`, whose raise is wrapped as `Embedding test failed:`),
index setup, and the upload (whose raise is wrapped as
`Failed to upload to Pinecone:`).  An `Except.error` is an exception
flowing to the `except` clause of `process_pdf`.  The temporary file has
been written before this body runs, so every trace here records it as
still existing.  The upload embeds every chunk, so it adds the chunk
count to `embedCalls`. -/
def process_try (env : IngestEnv) (indexName : String) :
    Except String String × IngestTrace :=
  match extract_text_from_pdf env.pages with
  | Except.error e => (Except.error e, ⟨0, none, none, 0, true⟩)
  | Except.ok (text, numPages) =>
    match split_text_into_chunks text with
    | Except.error e => (Except.error e, ⟨0, none, none, 0, true⟩)
    | Except.ok texts =>
      match env.embedDim (texts.headD []) with
      | Except.error e =>
        (Except.error ("Embedding test failed: " ++ e), ⟨1, none, none, 0, true⟩)
      | Except.ok dim =>
        match setup_pinecone_index env indexName with
        | (Except.error e, args, dcalls) =>
          (Except.error e, ⟨1, some dim, args, dcalls, true⟩)
        | (Except.ok _, args, dcalls) =>
          match env.uploadOk with
          | Except.error e =>
            (Except.error ("Failed to upload to Pinecone: " ++ e),
              ⟨1 + texts.length, some dim, args, dcalls, true⟩)
          | Except.ok _ =>
            (Except.ok ("PDF processed successfully! Created " ++ toString texts.length
                ++ " chunks from " ++ toString numPages ++ " pages."),
              ⟨1 + texts.length, some dim, args, dcalls, true⟩)

/-- The `finally` clause of `PDFProcessor.process_pdf` (`pdf_processor.py`
lines 174-180): `if os.path.exists(pdf_path)` try to `os.unlink` it, with
`except: pass` around the unlink.  `unlinkFails` tells whether the unlink
call raises; when it does, the exception is swallowed and the temporary
file remains on disk. -/
def finallyCleanupIo (unlinkFails : Bool) (tr : IngestTrace) : IngestTrace :=
  if tr.tempFileExists then
    if unlinkFails then tr else { tr with tempFileExists := false }
  else tr

/-- The `finally` clause in a run where the `os.unlink` call succeeds. -/
def finallyCleanup (tr : IngestTrace) : IngestTrace :=
  finallyCleanupIo false tr

/-- `PDFProcessor.process_pdf` (`pdf_processor.py` lines 116-180) with its
filesystem steps explicit.  `writeRes` is the outcome of saving the
uploaded bytes to the temporary file (lines 122-124): that save runs
BEFORE the `try` at line 126, so when it raises the exception propagates
to the caller unhandled (an `Except.error` result) and no cleanup runs —
the file, already created with `delete=False`, is left behind.  When the
save succeeds, the `try` body runs, the `except` clause turns every
exception into `(False, "Error processing PDF: ...")`, and the `finally`
clause attempts to remove the temporary file (`unlinkFails` as in
`finallyCleanupIo`). -/
def process_pdf_io (writeRes : Except String Unit) (unlinkFails : Bool)
    (env : IngestEnv) (indexName : String) :
    Except String ((Bool × String) × IngestTrace) :=
  match writeRes with
  | Except.error e => Except.error e
  | Except.ok _ =>
    match process_try env indexName with
    | (Except.ok msg, tr) => Except.ok ((true, msg), finallyCleanupIo unlinkFails tr)
    | (Except.error e, tr) =>
      Except.ok ((false, "Error processing PDF: " ++ e), finallyCleanupIo unlinkFails tr)

/-- `PDFProcessor.process_pdf` in a run where the two fallible filesystem
steps — the temporary-file save and the final unlink — both succeed. -/
def process_pdf (env : IngestEnv) (indexName : String) :
    Except String ((Bool × String) × IngestTrace) :=
  process_pdf_io (Except.ok ()) false env indexName

/-- One generation-provider request issued by `ChatManager.get_response`:
the persona (system prompt) baked into the prompt template, if any, and
the question.  The RAG fallback chain (`chat_manager.py` lines 112-119)
is built without `chain_type_kwargs`, i.e. with langchain's default
prompt, which contains no persona. -/
structure GenRequest where
  persona : Option String
  question : String
  deriving DecidableEq

/-- The state and external world of one `ChatManager.get_response` call:
whether a model is initialized (`current_model is not None`), whether
`pdf_processor.vectorstore` is set, the documents similarity search
returns for the question, and the generation provider. -/
structure ChatEnv where
  modelInitialized : Bool
  hasVectorstore : Bool
  retrieved : List String
  gen : GenRequest → Except String String

/-- The `try` body of `ChatManager.get_response` (`chat_manager.py` lines
96-135).  Returns the `(text, sources)` result (or the exception flowing
to the outer `except`) together with the list of generation requests made,
in order.  The RAG branch retries once with the persona-free default
prompt and, if that also fails, returns `RAG Error: ...` with no sources. -/
def get_response_try (env : ChatEnv) (question system_prompt : String)
    (use_rag : Bool) : Except String (String × List String) × List GenRequest :=
  if env.modelInitialized = false then
    (Except.ok ("No model initialized. Please select and initialize a model first.", []), [])
  else if use_rag = true ∧ env.hasVectorstore = false then
    (Except.ok ("RAG is enabled but no PDF has been processed. Please process a PDF first or disable RAG.", []), [])
  else if use_rag = true then
    match env.gen ⟨some system_prompt, question⟩ with
    | Except.ok text => (Except.ok (text, env.retrieved), [⟨some system_prompt, question⟩])
    | Except.error _ =>
      match env.gen ⟨none, question⟩ with
      | Except.ok text =>
        (Except.ok (text, env.retrieved),
          [⟨some system_prompt, question⟩, ⟨none, question⟩])
      | Except.error e2 =>
        (Except.ok ("RAG Error: " ++ e2, []),
          [⟨some system_prompt, question⟩, ⟨none, question⟩])
  else
    match env.gen ⟨some system_prompt, question⟩ with
    | Except.ok text => (Except.ok (text, []), [⟨some system_prompt, question⟩])
    | Except.error e => (Except.error e, [⟨some system_prompt, question⟩])

/-- `ChatManager.get_response` (`chat_manager.py` lines 91-138): the outer
`except` turns any exception from the `try` body into the
`Error generating response: ...` text with empty sources.  An
`Except.error` result would be an unhandled exception reaching the
caller. -/
def get_response (env : ChatEnv) (question system_prompt : String) (use_rag : Bool) :
    Except String ((String × List String) × List GenRequest) :=
  match get_response_try env question system_prompt use_rag with
  | (Except.ok pair, calls) => Except.ok (pair, calls)
  | (Except.error e, calls) =>
    Except.ok (("Error generating response: " ++ e, []), calls)

/-- The per-session state touched by the sidebar widgets (`app.py`
`initialize_session_state` plus the `ChatManager`-owned handles). -/
structure SessionState where
  system_prompt : String
  messages : List (String × String)
  memory : List (String × String)
  use_rag : Bool
  model_initialized : Bool
  model_type : String
  vectorstore : Option String
  deriving DecidableEq

/-- The state update at the end of `render_system_prompt_selection`
(`ui_components.py` lines 63-67): when the chosen prompt differs from the
session's, store it, clear the message log, and call
`ChatManager.clear_memory` (`chat_manager.py` lines 140-142), which
clears the rolling memory buffer.  Nothing else is touched. -/
def render_system_prompt_selection (st : SessionState) (system_prompt : String) :
    SessionState :=
  if system_prompt ≠ st.system_prompt then
    { st with system_prompt := system_prompt, messages := [], memory := [] }
  else
    st

/-- An ingestion environment whose embedding probe reports dimension 3:
one readable page, no existing index, all external calls succeed. -/
def probeEnv : IngestEnv :=
  ⟨[some ['h', 'e', 'l', 'l', 'o']], fun _ => Except.ok 3, [], Except.ok (),
    fun _ => true, Except.ok ()⟩

/-- An ingestion environment whose every page is missing, whitespace-only
or empty. -/
def blankEnv : IngestEnv :=
  ⟨[none, some [' ', '\n'], some []], fun _ => Except.ok 3, [], Except.ok (),
    fun _ => true, Except.ok ()⟩

/-- An ingestion environment with a three-page PDF of which only the first
page has non-whitespace text, and an already-existing index. -/
def existingEnv : IngestEnv :=
  ⟨[some ['h', 'i'], some [' '], none], fun _ => Except.ok 5, ["idx"],
    Except.ok (), fun _ => true, Except.ok ()⟩

/-- A chat environment with a populated vector store whose generation
provider fails on every request. -/
def ragFailEnv : ChatEnv :=
  ⟨true, true, ["doc1"], fun _ => Except.error "boom"⟩

/-- A chat environment with an initialized model and no populated vector
store. -/
def ragEmptyEnv : ChatEnv :=
  ⟨true, false, [], fun _ => Except.ok "hi"⟩

/-- A session with two conversation turns, a non-empty memory buffer, an
initialized Azure model and a populated vector store. -/
def sessionExample : SessionState :=
  ⟨"old", [("user", "A"), ("assistant", "B")], [("user", "A")], true, true,
    "azure", some "idx"⟩

/-- A document of three paragraphs (600, 500 and 500 characters) divided
by blank lines.  The configured splitter turns it into three chunks that
coincide with the paragraphs and share no text at all. -/
def cexText : Str :=
  List.replicate 600 'a' ++ ['\n', '\n'] ++ List.replicate 500 'b'
    ++ ['\n', '\n'] ++ List.replicate 500 'c'

/-- When the unlink call succeeds the temporary file never survives the
`finally` clause. -/
theorem finallyCleanup_temp (tr : IngestTrace) :
    (finallyCleanup tr).tempFileExists = false := by
  cases htr : tr.tempFileExists <;>
    simp [finallyCleanup, finallyCleanupIo, htr]

/-- The `finally` clause leaves the `create_index` arguments untouched. -/
theorem finallyCleanup_args (tr : IngestTrace) :
    (finallyCleanup tr).createIndexArgs = tr.createIndexArgs := by
  cases htr : tr.tempFileExists <;>
    simp [finallyCleanup, finallyCleanupIo, htr]

/-- In a run where the save succeeded and the unlink succeeds,
`process_pdf` is the plain try/except/finally over the pipeline body. -/
theorem process_pdf_eq (env : IngestEnv) (iname : String) :
    process_pdf env iname =
      match process_try env iname with
      | (Except.ok msg, tr) => Except.ok ((true, msg), finallyCleanup tr)
      | (Except.error e, tr) =>
        Except.ok ((false, "Error processing PDF: " ++ e), finallyCleanup tr) := rfl

/-- On success, `extract_text_from_pdf` reports exactly the number of
pages that survive the emptiness filter. -/
theorem extract_ok_count (pages : List (Option Str)) (t : Str) (n : Nat) :
    extract_text_from_pdf pages = Except.ok (t, n) →
    n = (pages.filterMap cleanPage).length := by
  intro h
  unfold extract_text_from_pdf at h
  split at h
  · exact absurd h (by simp)
  · rw [Except.ok.injEq, Prod.mk.injEq] at h
    exact h.2.symm

/-- `setup_pinecone_index` either never calls `create_index` or calls it
with the configured dimension and metric. -/
theorem setup_args (env : IngestEnv) (iname : String) :
    (setup_pinecone_index env iname).2.1 = none ∨
    (setup_pinecone_index env iname).2.1 =
      some (Config.VECTOR_DIMENSION, Config.VECTOR_METRIC) := by
  unfold setup_pinecone_index
  split
  · exact Or.inl rfl
  · split
    · exact Or.inr rfl
    · split
      · exact Or.inr rfl
      · exact Or.inr rfl

/-- A successful poll result counts at most `start + fuel` describe
calls. -/
theorem pollIndex_le (ready : Nat → Bool) (fuel : Nat) :
    ∀ (start n : Nat), pollIndex ready start fuel = Except.ok n →
    n ≤ start + fuel := by
  induction fuel with
  | zero => intro start n h; exact absurd h (by simp [pollIndex])
  | succ fuel ih =>
    intro start n h
    rw [pollIndex] at h
    split at h
    · rw [Except.ok.injEq] at h
      omega
    · have := ih (start + 1) n h
      omega

/-- If no poll in the window reports ready, the loop raises the timeout. -/
theorem pollIndex_timeout (ready : Nat → Bool) (fuel : Nat) :
    ∀ start : Nat, (∀ i, start ≤ i → i < start + fuel → ready i = false) →
    pollIndex ready start fuel = Except.error "Pinecone index creation timeout" := by
  induction fuel with
  | zero => intro start _; rfl
  | succ fuel ih =>
    intro start h
    rw [pollIndex]
    have hs : ready start = false := h start (Nat.le_refl start) (by omega)
    rw [hs]
    simp only [Bool.false_eq_true, if_false]
    exact ih (start + 1) (fun i h1 h2 => h i (by omega) (by omega))

/-- The loop stops at the first ready poll, having made `i + 1` describe
calls. -/
theorem pollIndex_first (ready : Nat → Bool) (fuel : Nat) :
    ∀ start i : Nat, start ≤ i → i < start + fuel → ready i = true →
    (∀ j, start ≤ j → j < i → ready j = false) →
    pollIndex ready start fuel = Except.ok (i + 1) := by
  induction fuel with
  | zero => intro start i h1 h2 _ _; omega
  | succ fuel ih =>
    intro start i h1 h2 h3 h4
    rw [pollIndex]
    by_cases hs : start = i
    · subst hs
      rw [h3]
      simp
    · have hrs : ready start = false := h4 start (Nat.le_refl start) (by omega)
      rw [hrs]
      simp only [Bool.false_eq_true, if_false]
      exact ih (start + 1) i (by omega) (by omega) h3
        (fun j hj1 hj2 => h4 j (by omega) hj2)

/-- The pop loop of `_merge_splits` preserves the exact window weight and,
given the exact weight, leaves at most `overlap` characters behind. -/
theorem popWhile_bound (sep : Str) (chunkSize overlap dlen : Nat) :
    ∀ (current : List Str) (total : Nat),
    total = docsWeight sep.length current →
    (popWhile sep chunkSize overlap dlen current total).2 ≤ overlap := by
  intro current
  induction current with
  | nil =>
    intro total h
    simp [popWhile, docsWeight] at h ⊢
    omega
  | cons c rest ih =>
    intro total h
    rw [popWhile]
    simp only [List.isEmpty_cons, Bool.false_eq_true, if_false]
    split
    · apply ih
      cases rest with
      | nil => simp [docsWeight] at h ⊢; omega
      | cons r rs => simp [docsWeight] at h ⊢; omega
    · rename_i hcond
      push_neg at hcond
      simpa using hcond.1

/-- Claim C1, counterexample.  The claim says the dimension passed to
`create_index` equals the dimension returned by the embedding probe.  In
the run below the probe reports dimension 3 (`probedDim = some 3`), yet
`create_index` receives the fixed configured dimension 1536: the two are
not equal, so the claim is false. -/
theorem C1_counterexample :
    process_pdf probeEnv "pdf-chatbot-index" =
      Except.ok ((true, "PDF processed successfully! Created 1 chunks from 1 pages."),
        ⟨2, some 3, some (1536, "cosine"), 1, false⟩) ∧
    (3 : Nat) ≠ Config.VECTOR_DIMENSION :=
  ⟨rfl, by decide⟩

/-- Claim C1, amended.  When ingestion creates a new index, the dimension
passed to `create_index` is always the fixed configured
`Config.VECTOR_DIMENSION` (1536) with the cosine metric; the probed
dimension is only reported through the status callback and is never
passed to `create_index`. -/
theorem C1_amended_fixed_dimension :
    ∀ (env : IngestEnv) (iname : String) (res : Bool × String) (tr : IngestTrace),
    process_pdf env iname = Except.ok (res, tr) →
    tr.createIndexArgs = none ∨
    tr.createIndexArgs = some (Config.VECTOR_DIMENSION, Config.VECTOR_METRIC) := by
  intro env iname res tr h
  rw [process_pdf_eq] at h
  rcases htry : process_try env iname with ⟨r, tr'⟩
  rw [htry] at h
  have hargs : tr.createIndexArgs = tr'.createIndexArgs := by
    cases r with
    | ok msg =>
      rw [Except.ok.injEq, Prod.mk.injEq] at h
      rw [← h.2, finallyCleanup_args]
    | error e =>
      rw [Except.ok.injEq, Prod.mk.injEq] at h
      rw [← h.2, finallyCleanup_args]
  rw [hargs]
  clear h hargs
  unfold process_try at htry
  split at htry
  · rw [Prod.mk.injEq] at htry
    rw [← htry.2]
    exact Or.inl rfl
  · split at htry
    · rw [Prod.mk.injEq] at htry
      rw [← htry.2]
      exact Or.inl rfl
    · split at htry
      · rw [Prod.mk.injEq] at htry
        rw [← htry.2]
        exact Or.inl rfl
      · split at htry
        · rename_i e args dcalls hsetup
          rw [Prod.mk.injEq] at htry
          rw [← htry.2]
          have := setup_args env iname
          rw [hsetup] at this
          exact this
        · rename_i b args dcalls hsetup
          split at htry <;>
          · rw [Prod.mk.injEq] at htry
            rw [← htry.2]
            have := setup_args env iname
            rw [hsetup] at this
            exact this

/-- Claim C1, witness for the amended theorem: in the concrete run of
`C1_counterexample` the index really is created, and with the configured
dimension and metric. -/
theorem C1_amended_witness :
    (⟨2, some 3, some (1536, "cosine"), 1, false⟩ : IngestTrace).createIndexArgs = none ∨
    (⟨2, some 3, some (1536, "cosine"), 1, false⟩ : IngestTrace).createIndexArgs =
      some (Config.VECTOR_DIMENSION, Config.VECTOR_METRIC) :=
  C1_amended_fixed_dimension probeEnv "pdf-chatbot-index"
    (true, "PDF processed successfully! Created 1 chunks from 1 pages.")
    ⟨2, some 3, some (1536, "cosine"), 1, false⟩ rfl

/-- Claim C2, counterexample.  The claim says every pair of adjacent
chunks (final-chunk pair excepted) overlaps by exactly the configured 200
characters.  On `cexText` the configured splitter produces three chunks
equal to the three paragraphs; chunk 1 is not the final chunk, and the
last 200 characters of chunk 0 (all `a`) differ from the first 200
characters of chunk 1 (all `b`): the adjacent chunks share nothing. -/
theorem C2_counterexample :
    split_text_into_chunks cexText =
      Except.ok [List.replicate 600 'a', List.replicate 500 'b', List.replicate 500 'c'] ∧
    List.drop (600 - Config.TEXT_CHUNK_OVERLAP) (List.replicate 600 'a') ≠
      List.take Config.TEXT_CHUNK_OVERLAP (List.replicate 500 'b') := by
  constructor
  · rfl
  · decide

/-- Claim C2, amended.  Adjacent chunks overlap by at most the configured
overlap length, not exactly: when `_merge_splits` finishes a chunk, the
splits it keeps as carry-over for the next chunk always weigh at most
`Config.TEXT_CHUNK_OVERLAP` (200) characters, and the carry can be
empty, so the overlap ranges from 0 to 200 characters. -/
theorem C2_amended_overlap_at_most :
    ∀ (sep : Str) (chunkSize dlen : Nat) (current : List Str) (total : Nat),
    total = docsWeight sep.length current →
    (popWhile sep chunkSize Config.TEXT_CHUNK_OVERLAP dlen current total).2 ≤
      Config.TEXT_CHUNK_OVERLAP :=
  fun sep chunkSize dlen current total h =>
    popWhile_bound sep chunkSize Config.TEXT_CHUNK_OVERLAP dlen current total h

/-- Claim C2, witness for the amended theorem at a concrete window: two
one-character splits with an incoming split of length 999. -/
theorem C2_amended_witness :
    2 = docsWeight (List.length ([] : Str)) [['a'], ['b']] ∧
    (popWhile [] Config.TEXT_CHUNK_SIZE Config.TEXT_CHUNK_OVERLAP 999 [['a'], ['b']] 2).2 ≤
      Config.TEXT_CHUNK_OVERLAP :=
  ⟨by decide, C2_amended_overlap_at_most [] Config.TEXT_CHUNK_SIZE 999 [['a'], ['b']] 2 (by decide)⟩

/-- Claim C3.  If every page of the PDF is missing, empty or
whitespace-only, ingestion fails inside text extraction: the run returns
`(False, "Error processing PDF: Error reading PDF: ...")` and its trace
shows zero embedding calls, no probe, no index call and no poll — the
failure happens before any embedding capability is reached. -/
theorem C3_blank_pdf_fails_before_embedding :
    ∀ (env : IngestEnv) (iname : String),
    (∀ p ∈ env.pages, cleanPage p = none) →
    process_pdf env iname =
      Except.ok
        ((false, "Error processing PDF: Error reading PDF: No text could be extracted from the PDF file."),
          ⟨0, none, none, 0, false⟩) := by
  intro env iname h
  have hnil : env.pages.filterMap cleanPage = [] := List.filterMap_eq_nil_iff.mpr h
  have hex : extract_text_from_pdf env.pages =
      Except.error "Error reading PDF: No text could be extracted from the PDF file." := by
    unfold extract_text_from_pdf
    rw [hnil]
    rfl
  have htry : process_try env iname =
      (Except.error "Error reading PDF: No text could be extracted from the PDF file.",
        ⟨0, none, none, 0, true⟩) := by
    unfold process_try
    rw [hex]
  rw [process_pdf_eq, htry]
  rfl

/-- Claim C3, witness: a PDF whose three pages are a missing text layer,
a whitespace-only page and an empty page. -/
theorem C3_witness :
    (∀ p ∈ blankEnv.pages, cleanPage p = none) ∧
    process_pdf blankEnv "pdf-chatbot-index" =
      Except.ok
        ((false, "Error processing PDF: Error reading PDF: No text could be extracted from the PDF file."),
          ⟨0, none, none, 0, false⟩) :=
  ⟨by decide, C3_blank_pdf_fails_before_embedding blankEnv "pdf-chatbot-index" (by decide)⟩

/-- Claim C4.  With a model initialized but no vector store populated,
`get_response` with `use_rag = true` returns the fixed guidance message
with an empty source list and issues no generation request at all. -/
theorem C4_rag_unpopulated_guidance :
    ∀ (env : ChatEnv) (question system_prompt : String),
    env.modelInitialized = true → env.hasVectorstore = false →
    get_response env question system_prompt true =
      Except.ok
        (("RAG is enabled but no PDF has been processed. Please process a PDF first or disable RAG.", []),
          []) := by
  intro env q sp h1 h2
  unfold get_response get_response_try
  rw [h1, h2]
  rfl

/-- Claim C4, witness: a concrete environment with an initialized model
and no vector store. -/
theorem C4_witness :
    ragEmptyEnv.modelInitialized = true ∧ ragEmptyEnv.hasVectorstore = false ∧
    get_response ragEmptyEnv "q" "persona" true =
      Except.ok
        (("RAG is enabled but no PDF has been processed. Please process a PDF first or disable RAG.", []),
          []) :=
  ⟨rfl, rfl, C4_rag_unpopulated_guidance ragEmptyEnv "q" "persona" rfl rfl⟩

/-- Claim C5.  In the RAG path, when the generation request built from the
persona-bearing prompt fails, exactly one retry is made, its request
carries no persona (the fallback chain uses the default prompt), and when
the retry also fails `get_response` returns the error text
(`RAG Error: ...`) with an empty source list instead of raising: the
request trace is exactly the two attempts. -/
theorem C5_retry_without_persona :
    ∀ (env : ChatEnv) (question system_prompt e1 e2 : String),
    env.modelInitialized = true → env.hasVectorstore = true →
    env.gen ⟨some system_prompt, question⟩ = Except.error e1 →
    env.gen ⟨none, question⟩ = Except.error e2 →
    get_response env question system_prompt true =
      Except.ok (("RAG Error: " ++ e2, []),
        [⟨some system_prompt, question⟩, ⟨none, question⟩]) := by
  intro env q sp e1 e2 h1 h2 h3 h4
  unfold get_response get_response_try
  rw [h1, h2, h3, h4]
  rfl

/-- Claim C5, witness: a populated store whose provider fails on every
request. -/
theorem C5_witness :
    get_response ragFailEnv "q" "persona" true =
      Except.ok (("RAG Error: boom", []),
        [⟨some "persona", "q"⟩, ⟨none, "q"⟩]) :=
  C5_retry_without_persona ragFailEnv "q" "persona" "boom" "boom" rfl rfl rfl rfl

/-- Claim C6, counterexample.  The claim says ingestion always returns a
`(success-flag, message)` pair and no failure inside the pipeline reaches
the caller unhandled.  But the temporary-file save (`pdf_processor.py`
lines 122-124) precedes the `try` at line 126: a run whose save raises
(for example a disk-full `OSError`) propagates that exception to the
caller instead of returning a pair. -/
theorem C6_counterexample :
    process_pdf_io (Except.error "disk full") false probeEnv "pdf-chatbot-index" =
      Except.error "disk full" := rfl

/-- Claim C6, amended.  The answering boundary is total for every input,
and the ingestion boundary is total for every run in which the initial
save of the uploaded bytes to the temporary file succeeds: every failure
arising inside the `try` body (extraction, chunking, embedding probe,
index setup, upload) is caught and returned as a `(success-flag,
message)` pair.  A failure of the save itself, which runs before the
`try`, propagates to the caller unhandled. -/
theorem C6_amended_total_after_save :
    ∀ (writeRes : Except String Unit) (unlinkFails : Bool) (env : IngestEnv)
      (iname : String) (cenv : ChatEnv) (question system_prompt : String)
      (use_rag : Bool),
    (writeRes = Except.ok () →
      ∃ x, process_pdf_io writeRes unlinkFails env iname = Except.ok x) ∧
    (∃ y, get_response cenv question system_prompt use_rag = Except.ok y) := by
  intro writeRes unlinkFails env iname cenv q sp r
  constructor
  · intro hw
    subst hw
    rcases htry : process_try env iname with ⟨res, tr⟩
    cases res with
    | ok msg => exact ⟨_, by unfold process_pdf_io; rw [htry]⟩
    | error e => exact ⟨_, by unfold process_pdf_io; rw [htry]⟩
  · rcases htry : get_response_try cenv q sp r with ⟨res, calls⟩
    cases res with
    | ok pair => exact ⟨_, by unfold get_response; rw [htry]⟩
    | error e => exact ⟨_, by unfold get_response; rw [htry]⟩

/-- Claim C6, witness for the amended theorem: a run whose save succeeds
returns a pair, and an answering call returns a pair. -/
theorem C6_amended_witness :
    (∃ x, process_pdf_io (Except.ok ()) false probeEnv "pdf-chatbot-index" =
      Except.ok x) ∧
    (∃ y, get_response ragEmptyEnv "q" "persona" true = Except.ok y) :=
  ⟨(C6_amended_total_after_save (Except.ok ()) false probeEnv "pdf-chatbot-index"
      ragEmptyEnv "q" "persona" true).1 rfl,
    (C6_amended_total_after_save (Except.ok ()) false probeEnv "pdf-chatbot-index"
      ragEmptyEnv "q" "persona" true).2⟩

/-- Claim C7, counterexample.  The claim says the filesystem state after
every ingestion call contains no entry for the temporary file.  The
`finally` clause wraps `os.unlink` in `except: pass`
(`pdf_processor.py` lines 177-180): in a run where the unlink raises, the
exception is swallowed and the call returns normally with the temporary
file still on disk (`tempFileExists = true`). -/
theorem C7_counterexample :
    process_pdf_io (Except.ok ()) true blankEnv "x" =
      Except.ok
        ((false, "Error processing PDF: Error reading PDF: No text could be extracted from the PDF file."),
          ⟨0, none, none, 0, true⟩) := rfl

/-- Claim C7, amended.  On every run in which the temporary file was
saved, the `finally` clause runs on the success path and on every failure
path and attempts removal; the file is absent afterwards whenever the
unlink call itself succeeds.  When the unlink raises, its exception is
swallowed and the file survives; a failure of the initial save (before
the `try`) likewise leaves the file behind with no cleanup. -/
theorem C7_amended_removed_when_unlink_succeeds :
    ∀ (env : IngestEnv) (iname : String) (res : Bool × String) (tr : IngestTrace),
    process_pdf_io (Except.ok ()) false env iname = Except.ok (res, tr) →
    tr.tempFileExists = false := by
  intro env iname res tr h
  rw [show process_pdf_io (Except.ok ()) false env iname = process_pdf env iname from rfl,
    process_pdf_eq] at h
  rcases htry : process_try env iname with ⟨r, tr'⟩
  rw [htry] at h
  cases r with
  | ok msg =>
    rw [Except.ok.injEq, Prod.mk.injEq] at h
    rw [← h.2]
    exact finallyCleanup_temp tr'
  | error e =>
    rw [Except.ok.injEq, Prod.mk.injEq] at h
    rw [← h.2]
    exact finallyCleanup_temp tr'

/-- Claim C7, witness for the amended theorem: the blank-PDF failure run
with a successful unlink ends with the temporary file removed. -/
theorem C7_amended_witness :
    process_pdf_io (Except.ok ()) false blankEnv "x" =
      Except.ok
        ((false, "Error processing PDF: Error reading PDF: No text could be extracted from the PDF file."),
          ⟨0, none, none, 0, false⟩) ∧
    (⟨0, none, none, 0, false⟩ : IngestTrace).tempFileExists = false :=
  ⟨rfl,
    C7_amended_removed_when_unlink_succeeds blankEnv "x"
      (false, "Error processing PDF: Error reading PDF: No text could be extracted from the PDF file.")
      ⟨0, none, none, 0, false⟩ rfl⟩

/-- Claim C8.  The readiness wait of `setup_pinecone_index` is bounded: a
successful poll run makes at most 30 describe calls, the loop stops at
the first poll that reports ready (with `i + 1` describe calls), and when
none of the 30 polls reports ready it raises the timeout error. -/
theorem C8_bounded_poll :
    ∀ ready : Nat → Bool,
    (∀ n, pollIndex ready 0 30 = Except.ok n → n ≤ 30) ∧
    (∀ i, i < 30 → ready i = true → (∀ j, j < i → ready j = false) →
      pollIndex ready 0 30 = Except.ok (i + 1)) ∧
    ((∀ i, i < 30 → ready i = false) →
      pollIndex ready 0 30 = Except.error "Pinecone index creation timeout") := by
  intro ready
  refine ⟨fun n h => by simpa using pollIndex_le ready 30 0 n h, fun i h1 h2 h3 => ?_, fun h => ?_⟩
  · exact pollIndex_first ready 30 0 i (Nat.zero_le i) (by omega) h2
      (fun j _ hj => h3 j hj)
  · exact pollIndex_timeout ready 30 0 (fun i _ hi => h i (by omega))

/-- Claim C8, witness: an index that becomes ready at the third poll stops
the loop there with three describe calls, and an index that is never
ready raises the timeout. -/
theorem C8_witness :
    pollIndex (fun i => decide (i = 2)) 0 30 = Except.ok 3 ∧
    pollIndex (fun _ => false) 0 30 = Except.error "Pinecone index creation timeout" :=
  ⟨(C8_bounded_poll (fun i => decide (i = 2))).2.1 2 (by decide) (by decide) (by decide),
    (C8_bounded_poll (fun _ => false)).2.2 (fun i _ => rfl)⟩

/-- Claim C9.  Changing the persona to a different string clears the
conversation log and the rolling memory buffer while leaving the RAG
setting, the model handle (initialization flag and type) and the vector
store reference unchanged; the new persona is stored. -/
theorem C9_persona_change_clears_history :
    ∀ (st : SessionState) (p : String), p ≠ st.system_prompt →
    (render_system_prompt_selection st p).messages = [] ∧
    (render_system_prompt_selection st p).memory = [] ∧
    (render_system_prompt_selection st p).use_rag = st.use_rag ∧
    (render_system_prompt_selection st p).model_initialized = st.model_initialized ∧
    (render_system_prompt_selection st p).model_type = st.model_type ∧
    (render_system_prompt_selection st p).vectorstore = st.vectorstore ∧
    (render_system_prompt_selection st p).system_prompt = p := by
  intro st p h
  simp [render_system_prompt_selection, h]

/-- Claim C9, witness: a session with log `[A, B]` whose persona changes
from `"old"` to `"new"` ends with an empty log and memory, everything
else untouched. -/
theorem C9_witness :
    (render_system_prompt_selection sessionExample "new").messages = [] ∧
    (render_system_prompt_selection sessionExample "new").memory = [] ∧
    (render_system_prompt_selection sessionExample "new").use_rag = sessionExample.use_rag ∧
    (render_system_prompt_selection sessionExample "new").model_initialized =
      sessionExample.model_initialized ∧
    (render_system_prompt_selection sessionExample "new").model_type =
      sessionExample.model_type ∧
    (render_system_prompt_selection sessionExample "new").vectorstore =
      sessionExample.vectorstore ∧
    (render_system_prompt_selection sessionExample "new").system_prompt = "new" :=
  C9_persona_change_clears_history sessionExample "new" (by decide)

/-- Claim C10.  The page count in the ingestion success summary is the
number of pages whose extracted text is non-empty after trimming (the
filtered count), not the total page count of the PDF. -/
theorem C10_reported_page_count :
    ∀ (env : IngestEnv) (iname msg : String) (tr : IngestTrace),
    process_try env iname = (Except.ok msg, tr) →
    ∃ k : Nat, msg = "PDF processed successfully! Created " ++ toString k
      ++ " chunks from " ++ toString (env.pages.filterMap cleanPage).length
      ++ " pages." := by
  intro env iname msg tr h
  unfold process_try at h
  split at h
  · exact absurd h (by simp)
  · rename_i text numPages hex
    split at h
    · exact absurd h (by simp)
    · split at h
      · exact absurd h (by simp)
      · split at h
        · exact absurd h (by simp)
        · split at h
          · exact absurd h (by simp)
          · rw [Prod.mk.injEq, Except.ok.injEq] at h
            rw [← h.1, extract_ok_count env.pages text numPages hex]
            exact ⟨_, rfl⟩

/-- Claim C10, witness: a three-page PDF with one readable page, one
whitespace-only page and one page with no text layer reports 1 page, not
3. -/
theorem C10_witness :
    (∃ k : Nat, "PDF processed successfully! Created 1 chunks from 1 pages." =
      "PDF processed successfully! Created " ++ toString k
        ++ " chunks from " ++ toString (existingEnv.pages.filterMap cleanPage).length
        ++ " pages.") ∧
    existingEnv.pages.length = 3 ∧
    (existingEnv.pages.filterMap cleanPage).length = 1 :=
  ⟨C10_reported_page_count existingEnv "idx"
      "PDF processed successfully! Created 1 chunks from 1 pages."
      ⟨2, some 5, none, 0, true⟩ rfl,
    by decide, by decide⟩

end Chatbot
